import Mathlib

set_option autoImplicit false

/-
Shallow embedding of udp-node (src/index.js): a UDP peer-discovery node.
JavaScript objects are modelled as ordered association lists of JSON values,
the node's mutable `this.config` as a structure with optional fields (absent
key = `undefined`), thrown errors as explicit error values, and the observable
side effects of a call (logging, callback invocations, datagrams handed to the
socket) as an ordered trace of events.
-/

/-- A JSON-compatible JavaScript value, as produced by JSON.parse and consumed by
JSON.stringify in the udp-node wire protocol. `undefined` is represented by absence
(an `Option JVal` that is `none`); object keys holding undefined are dropped by
JSON.stringify, so constructed message literals omit them. -/
inductive JVal where
  | str : String → JVal
  | num : Int → JVal
  | bool : Bool → JVal
  | null : JVal
  | arr : List JVal → JVal
  | obj : List (String × JVal) → JVal

/-- A JavaScript object as an ordered association list, matching JS object key
insertion order. Keys are unique in every object the code builds. -/
abbrev Msg := List (String × JVal)

/-- Property read `o[k]`; `none` models JavaScript `undefined`. -/
def getProp (m : Msg) (k : String) : Option JVal :=
  match m with
  | [] => none
  | (k', v) :: t => if k' = k then some v else getProp t k

/-- Property write `o[k] = v`: replaces the value of an existing key in place,
appends the key at the end otherwise (JS object insertion order). -/
def setProp (m : Msg) (k : String) (v : JVal) : Msg :=
  match m with
  | [] => [(k, v)]
  | (k', v') :: t => if k' = k then (k', v) :: t else (k', v') :: setProp t k v

/-- Object.keys, in insertion order. -/
def keysOf (m : Msg) : List String := m.map (·.1)

/-- JavaScript truthiness of a value. -/
def truthy : JVal → Bool
  | .str s => !(s == "")
  | .num n => !(n == 0)
  | .bool b => b
  | .null => false
  | .arr _ => true
  | .obj _ => true

/-- JavaScript truthiness of a possibly-undefined value. -/
def truthyOpt : Option JVal → Bool
  | none => false
  | some v => truthy v

/-- JavaScript `a || d` where `a` may be undefined and the default `d` is a value. -/
def jsOr (a : Option JVal) (d : JVal) : JVal :=
  match a with
  | some v => if truthy v then v else d
  | none => d

/-- JavaScript `a || b` where both operands may be undefined. -/
def jsOrUndef (a b : Option JVal) : Option JVal :=
  if truthyOpt a then a else b

/-- JavaScript strict equality `===` between two values of distinct provenance
(one parsed from the wire, one held by the node): primitives compare by value,
objects and arrays by reference, and two separately materialised references are
never identical. -/
def jsEqV : JVal → JVal → Bool
  | .str a, .str b => a == b
  | .num a, .num b => a == b
  | .bool a, .bool b => a == b
  | .null, .null => true
  | _, _ => false

/-- `===` where either side may be undefined (`undefined === undefined` is true). -/
def jsEqOpt : Option JVal → Option JVal → Bool
  | none, none => true
  | some a, some b => jsEqV a b
  | _, _ => false

/-- The `.length` property read of a truthy value: arrays and strings have a
numeric length, plain objects may carry an explicit `length` key, and numbers
and booleans have no such property (`undefined`). -/
def jsLen : JVal → Option JVal
  | .arr l => some (.num l.length)
  | .str s => some (.num s.length)
  | .obj o => getProp o "length"
  | _ => none

mutual

/-- JavaScript string coercion (as performed by the `in` operator on a property
key): arrays join their coerced elements with commas, plain objects print as
`[object Object]`. -/
def jsToStr : JVal → String
  | .str s => s
  | .num n => toString n
  | .bool b => cond b "true" "false"
  | .null => "null"
  | .obj _ => "[object Object]"
  | .arr l => String.intercalate "," (jsToStrElems l)

/-- String coercion of array elements; null elements coerce to the empty string. -/
def jsToStrElems : List JVal → List String
  | [] => []
  | .null :: t => "" :: jsToStrElems t
  | v :: t => jsToStr v :: jsToStrElems t

end

/-- The property key a possibly-undefined value coerces to when used with the
`in` operator (`undefined in o` tests the key "undefined"). -/
def jsKeyOf : Option JVal → String
  | none => "undefined"
  | some (.str s) => s
  | some v => jsToStr v

/-- Whether the character list `t` occurs at the start of `s`. -/
def chStarts : List Char → List Char → Bool
  | _, [] => true
  | [], _ :: _ => false
  | a :: s, b :: t => a == b && chStarts s t

/-- Whether the character list `t` occurs anywhere inside `s`. -/
def chHasSub : List Char → List Char → Bool
  | s, t =>
    match s with
    | [] => t.isEmpty
    | _ :: s' => chStarts s t || chHasSub s' t

/-- `String.prototype.indexOf(t) !== -1`: substring occurrence. -/
def strHasSub (s t : String) : Bool := chHasSub s.toList t.toList

/-- The errors the code can throw synchronously, named after the taxonomy of the
specification: `Error` throws from explicit validation sites are mapped to
`notConfigured` / `missingType` / `missingAddress` / `invalidArgument` by throw
site, and runtime faults keep their JavaScript class. -/
inductive JsErr where
  | notConfigured
  | missingType
  | missingAddress
  | invalidArgument
  | typeError
  | syntaxError

/-- The sender information (`rinfo`) the UDP socket attaches to an inbound datagram. -/
structure Rinfo where
  address : String
  port : Int

/-- A datagram handed to `client.send`: the serialized object (JSON round-trips it
unchanged), and the destination port and address arguments. -/
structure Wire where
  payload : Msg
  destPort : JVal
  destAddress : JVal

/-- One observable side effect of a call, in program order. -/
inductive Ev where
  | logDebug
  | logError
  | cb (message : JVal) (r : Rinfo)
  | custom (handler : Nat) (message : JVal) (r : Rinfo)
  | wire (w : Wire)
  | transportClose

/-- The node's `this.config` object. The constructor creates it holding only the
generated `id`; `set` adds `port`, `broadcastAddress` and `name`. No code path
ever assigns `config.type`, so that key is carried only because
`isNodeOfInterest` and `toSimpleName` read it. `none` = key absent. -/
structure NodeConfig where
  id : JVal
  port : Option JVal := none
  broadcastAddress : Option JVal := none
  name : Option JVal := none
  type : Option JVal := none

namespace UdpNode

/-- The constructor's `this.config = { id: uuid() }`, with the generated
identifier passed in explicitly. -/
def mkNode (g : String) : NodeConfig := { id := .str g }

/-- `set(config)`: merge the options object into `this.config`, falling back to
the previous id and to the defaults PORT = 3024 and
BROADCAST_ADDRESS = 255.255.255.255, and storing `name || null`. Keys of the
options object other than id, port, broadcastAddress and name are not read. -/
def set (c : NodeConfig) (o : Msg) : NodeConfig :=
  { id := jsOr (getProp o "id") c.id,
    port := some (jsOr (getProp o "port") (.num 3024)),
    broadcastAddress := some (jsOr (getProp o "broadcastAddress") (.str "255.255.255.255")),
    name := some (jsOr (getProp o "name") .null),
    type := c.type }

/-- Object.keys(this.config).length. -/
def keyCount (c : NodeConfig) : Nat :=
  1 + (cond c.port.isSome 1 0) + (cond c.broadcastAddress.isSome 1 0)
    + (cond c.name.isSome 1 0) + (cond c.type.isSome 1 0)

/-- `wasSetup()`: the config object has more keys than the constructor-time id. -/
def wasSetup (c : NodeConfig) : Bool := decide (1 < keyCount c)

/-- `this.config` as the JSON value embedded in outbound messages (key insertion
order: id, then the keys `set` assigns). -/
def configToJVal (c : NodeConfig) : JVal :=
  .obj ([("id", c.id)]
    ++ (match c.port with | some v => [("port", v)] | none => [])
    ++ (match c.broadcastAddress with | some v => [("broadcastAddress", v)] | none => [])
    ++ (match c.name with | some v => [("name", v)] | none => [])
    ++ (match c.type with | some v => [("type", v)] | none => []))

/-- The outcome of `send(message)`: the error thrown (if any), the datagrams
handed to the socket, and the caller's message object after the call (`send`
mutates it in place). -/
structure SendRes where
  err : Option JsErr
  sent : List Wire
  msg : Msg

/-- `send(message, callback)`: throw if unconfigured or the message has no truthy
type; otherwise stamp `from` with the node's id, default `port` and `address`,
serialize, and hand the datagram to the socket with the message's port and
address. -/
def send (c : NodeConfig) (m : Msg) : SendRes :=
  if !wasSetup c then ⟨some .notConfigured, [], m⟩
  else if !truthyOpt (getProp m "type") then ⟨some .missingType, [], m⟩
  else
    let m1 := setProp m "from" c.id
    let pv := jsOr (getProp m1 "port") (.num 3024)
    let m2 := setProp m1 "port" pv
    let av := jsOr (getProp m2 "address") (.str "255.255.255.255")
    let m3 := setProp m2 "address" av
    ⟨none, [⟨m3, pv, av⟩], m3⟩

/-- `ping({address, port, data = null})`: throw if unconfigured, then if the
address is not truthy; otherwise build the ping message (destructuring defaults
`data` to null only when it is undefined) and send it. -/
def ping (c : NodeConfig) (p : Msg) : Option JsErr × List Wire :=
  if !wasSetup c then (some .notConfigured, [])
  else
    let a := getProp p "address"
    if !truthyOpt a then (some .missingAddress, [])
    else
      let port := jsOr (getProp p "port") (.num 3024)
      let data := (getProp p "data").getD .null
      let m : Msg := [("type", .str "ping"), ("node", configToJVal c), ("data", data),
                      ("port", port), ("address", jsOr a .null)]
      let s := send c m
      (s.err, s.sent)

/-- An object literal whose keys with undefined values are dropped (observationally
equivalent for every read, write and JSON.stringify the code performs). -/
def objOpt (l : List (String × Option JVal)) : Msg :=
  l.filterMap (fun kv => kv.2.map (fun v => (kv.1, v)))

/-- `broadcast(params)`: throw if unconfigured; otherwise build the broadcast
message, defaulting port to `params.port || config.port || 3024` and address to
`params.address || config.broadcastAddress`, and send it. -/
def broadcast (c : NodeConfig) (params : Option Msg) : Option JsErr × List Wire :=
  if !wasSetup c then (some .notConfigured, [])
  else
    let filter := params.bind (getProp · "filter")
    let port := params.bind (getProp · "port")
    let address := params.bind (getProp · "address")
    let data := params.bind (getProp · "data")
    let m := objOpt [("type", some (.str "broadcast")), ("node", some (configToJVal c)),
                     ("filter", filter), ("data", data),
                     ("port", some (jsOr port (jsOr c.port (.num 3024)))),
                     ("address", jsOrUndef address c.broadcastAddress)]
    let s := send c m
    (s.err, s.sent)

/-- The pong message `pong(message, rinfo)` builds: the node's identity addressed
back to the sender's address and source port. -/
def pongMsg (c : NodeConfig) (r : Rinfo) : Msg :=
  [("type", .str "pong"), ("port", .num r.port), ("address", .str r.address),
   ("node", configToJVal c)]

/-- `pong(message, rinfo)`: send the node's identity back to the sender. -/
def pong (c : NodeConfig) (r : Rinfo) : SendRes :=
  send c (pongMsg c r)

/-- `isNodeOfInterest(message)`: self-message suppression, then unfiltered
requests, then a node without a configured type, then membership of the node's
type in the filter (Array.prototype.indexOf on an array filter, substring search
when the filter is a string, a TypeError on a plain object with a truthy
length). Errors are returned explicitly because the dispatcher catches them. -/
def isNodeOfInterest (c : NodeConfig) (m : Msg) : Except JsErr Bool :=
  if jsEqOpt (getProp m "from") (some c.id) then .ok false
  else
    let f := getProp m "filter"
    if !truthyOpt f then .ok true
    else
      match f with
      | none => .ok true
      | some fv =>
        if !truthyOpt (jsLen fv) then .ok true
        else
          match c.type with
          | none => .ok true
          | some t =>
            match fv with
            | .arr l => .ok (l.any (fun x => jsEqV x t))
            | .str s => .ok (strHasSub s (jsToStr t))
            | _ => .error .typeError

/-- `onPing(message, rinfo)`: nothing when the node is not of interest; otherwise
log, fire the discovery callback, and answer with a pong. The second component
is an exception escaping the handler (caught by the dispatcher). -/
def onPing (c : NodeConfig) (m : Msg) (r : Rinfo) : List Ev × Option JsErr :=
  match isNodeOfInterest c m with
  | .error e => ([], some e)
  | .ok false => ([], none)
  | .ok true =>
    let s := pong c r
    ([.logDebug, .cb (.obj m) r] ++ s.sent.map .wire, s.err)

/-- `onBroadcast(message, rinfo)`: identical to the ping handling. -/
def onBroadcast (c : NodeConfig) (m : Msg) (r : Rinfo) : List Ev × Option JsErr :=
  match isNodeOfInterest c m with
  | .error e => ([], some e)
  | .ok false => ([], none)
  | .ok true =>
    let s := pong c r
    ([.logDebug, .cb (.obj m) r] ++ s.sent.map .wire, s.err)

/-- `onPong(message, rinfo)`: log and fire the discovery callback, nothing else. -/
def onPong (_c : NodeConfig) (m : Msg) (r : Rinfo) : List Ev × Option JsErr :=
  ([.logDebug, .cb (.obj m) r], none)

/-- The pong object as it leaves the socket: the literal `pong` built by
`pong(message, rinfo)` after `send` has stamped `from` (a derived definition,
used to state what the dispatcher emits). -/
def pongWirePayload (c : NodeConfig) (r : Rinfo) : Msg :=
  [("type", .str "pong"), ("port", .num r.port), ("address", .str r.address),
   ("node", configToJVal c), ("from", c.id)]

end UdpNode

/-- The custom event registry `this.events`: event-type key to the ordered list of
registered handlers, represented by opaque handler identifiers (`on` only ever
stores functions). -/
abbrev Events := List (String × List Nat)

/-- First entry for a key, as JS property lookup on the registry object. -/
def lookupEv (evts : Events) (k : String) : Option (List Nat) :=
  match evts with
  | [] => none
  | (k', l) :: t => if k' = k then some l else lookupEv t k

/-- `delete this.events[type]`. -/
def removeKey (evts : Events) (k : String) : Events :=
  evts.filter (fun kv => !(kv.1 == k))

/-- In-place update of the array stored under an existing key. -/
def updateKey (evts : Events) (k : String) (f : List Nat → List Nat) : Events :=
  match evts with
  | [] => []
  | (k', l) :: t => if k' = k then (k', f l) :: t else (k', l) :: updateKey t k f

/-- The property keys every plain object inherits from Object.prototype: reading
one off the registry without an own entry yields the inherited value (a function,
or the prototype object for proto), which is truthy and is not an array. -/
def protoKeys : List String :=
  ["constructor", "hasOwnProperty", "isPrototypeOf", "propertyIsEnumerable",
   "toLocaleString", "toString", "valueOf", "__defineGetter__", "__defineSetter__",
   "__lookupGetter__", "__lookupSetter__", "__proto__"]

/-- What a property read `this.events[k]` can yield: an own entry's handlers
array, or a truthy non-array value inherited from Object.prototype (`none` is
`undefined`). -/
inductive RegVal where
  | arr (l : List Nat)
  | inherited

/-- The registry property read `this.events[k]`, consulting own keys first and
then the Object.prototype chain. -/
def eventsRead (evts : Events) (k : String) : Option RegVal :=
  match lookupEv evts k with
  | some l => some (.arr l)
  | none => if k ∈ protoKeys then some .inherited else none

/-- `array.splice(i, 1)` on a list: removes the element at index i if it exists. -/
def spliceAt (l : List Nat) (i : Nat) : List Nat :=
  l.take i ++ l.drop (i + 1)

/-- The callback argument of `on`: a falsy value, a truthy non-function, or a
function (identified opaquely). -/
inductive CB where
  | undef
  | nonFunc
  | func (h : Nat)

namespace UdpNode

/-- `on(type, callback)` (named onEvt here because `on` is reserved): validate
that the type is truthy and the callback a function (the spec's InvalidArgument
errors); then `if (!this.events[type]) this.events[type] = []` creates the array
only when the truthiness read — which consults the prototype chain — yields
nothing, and `this.events[type].push(callback)` appends: with an own entry it
appends in place, with a fresh array it stores the single handler, and on an
inherited Object.prototype value the push call throws a TypeError. -/
def onEvt (evts : Events) (τ : String) (cb : CB) : Except JsErr Events :=
  if τ = "" then .error .invalidArgument
  else
    match cb with
    | .undef => .error .invalidArgument
    | .nonFunc => .error .invalidArgument
    | .func h =>
      match eventsRead evts τ with
      | some (.arr _) => .ok (updateKey evts τ (fun l => l ++ [h]))
      | some .inherited => .error .typeError
      | none => .ok (evts ++ [(τ, [h])])

/-- `off(type, index)`: validate the type; with no index `delete` removes the own
entry (inherited prototype properties are unaffected); with an index
`this.events[type].splice(index, 1)` splices the own array — on a missing entry
the read yields undefined or an inherited non-array value, and either way the
splice call throws a TypeError. -/
def off (evts : Events) (τ : String) (idx : Option Nat) : Except JsErr Events :=
  if τ = "" then .error .invalidArgument
  else
    match idx with
    | none => .ok (removeKey evts τ)
    | some i =>
      match eventsRead evts τ with
      | some (.arr _) => .ok (updateKey evts τ (fun l => spliceAt l i))
      | _ => .error .typeError

/-- `isCustomEvent(type)`: `type in this.events` — the `in` operator also finds
the keys inherited from Object.prototype. -/
def isCustomEvent (evts : Events) (k : String) : Bool :=
  (lookupEv evts k).isSome || decide (k ∈ protoKeys)

/-- `onCustomEvent(type, message, rinfo)`: log, then `this.events[type].map`
calls every handler stored under the type in order (each stored entry is a
function); off an own entry the read yields undefined or an inherited non-array
value, and the map call throws a TypeError after the log. -/
def onCustomEvent (evts : Events) (k : String) (message : JVal) (r : Rinfo) :
    List Ev × Option JsErr :=
  match eventsRead evts k with
  | some (.arr l) => ([.logDebug] ++ l.map (fun h => .custom h message r), none)
  | _ => ([.logDebug], some .typeError)

end UdpNode

/-- Where control leaves the try block of the inbound message listener: through a
`return` from one of the handlers, by falling off the end (no branch matched), or
through an exception. -/
inductive TryOut where
  | ret (evs : List Ev)
  | fell (evs : List Ev)
  | threw (evs : List Ev) (e : JsErr)

/-- Lift a handler outcome into the try-block control flow. -/
def liftTR : List Ev × Option JsErr → TryOut
  | (evs, none) => .ret evs
  | (evs, some e) => .threw evs e

namespace UdpNode

/-- The body of the try block of the `message` listener `set` installs: parse the
datagram (a parse failure is a thrown SyntaxError), then dispatch on the
message's type — the three built-in kinds by strict string equality, then the
custom event registry (the `in` test coercing a non-string type to a property
key), falling through for anything else. Reading `.type` off a parsed `null`
throws a TypeError. The inbound datagram is modelled after the parse step:
`none` stands for bytes JSON.parse rejects. -/
def dispatchTry (c : NodeConfig) (evts : Events) (d : Option JVal) (r : Rinfo) : TryOut :=
  match d with
  | none => .threw [] .syntaxError
  | some .null => .threw [] .typeError
  | some (.obj m) =>
    match getProp m "type" with
    | some (.str "ping") => liftTR (onPing c m r)
    | some (.str "pong") => liftTR (onPong c m r)
    | some (.str "broadcast") => liftTR (onBroadcast c m r)
    | t =>
      if isCustomEvent evts (jsKeyOf t) then
        liftTR (onCustomEvent evts (jsKeyOf t) (.obj m) r)
      else .fell []
  | some v =>
    if isCustomEvent evts "undefined" then
      liftTR (onCustomEvent evts "undefined" v r)
    else .fell []

/-- The whole `message` listener: run the try block; a caught exception is logged
with `logger.error` and then, like any fall-through, hits the trailing
`got INVALID message` debug log. Nothing after the catch can throw, so the
listener always returns an event trace to the socket. -/
def messageHandler (c : NodeConfig) (evts : Events) (d : Option JVal) (r : Rinfo) :
    List Ev :=
  match dispatchTry c evts d r with
  | .ret evs => evs
  | .fell evs => evs ++ [.logDebug]
  | .threw evs _ => evs ++ [.logError, .logDebug]

/-- Inbound datagrams are delivered to the listener one at a time in arrival
order; the listener does not modify the registry or the config, so processing a
sequence is the concatenation of the individual traces. -/
def processList (c : NodeConfig) (evts : Events) :
    List (Option JVal × Rinfo) → List Ev
  | [] => []
  | (d, r) :: t => messageHandler c evts d r ++ processList c evts t

/-- `close(callback)`: guarded by the `isClosed` flag; the first call flips the
flag, logs, and closes the socket, every later call returns immediately. The
state is the flag, the trace records the socket close. -/
def close (isClosed : Bool) : Bool × List Ev :=
  if isClosed then (isClosed, [])
  else (true, [.logDebug, .transportClose])

/-- `n` successive `close()` calls, accumulating the trace. -/
def closeMany : Nat → Bool → Bool × List Ev
  | 0, s => (s, [])
  | n + 1, s =>
    let p := close s
    let q := closeMany n p.1
    (q.1, p.2 ++ q.2)

end UdpNode

/-- The envelope fields of the specification's data model (section 3). -/
def dataModelFields : List String :=
  ["type", "from", "node", "filter", "data", "port", "address"]

/-- A node configured with `set({})`, every option defaulted: a concrete
configured instance. -/
def cfgW : NodeConfig := UdpNode.set (UdpNode.mkNode "sender-1") []

/-- A node configured with a declared type (the spec's role) r2 — which `set`
does not store. -/
def cfgRoleR2 : NodeConfig :=
  UdpNode.set (UdpNode.mkNode "node-b") [("name", .str "b"), ("type", .str "r2")]

/-- An inbound broadcast from another node carrying the role filter [r1]. -/
def broadcastFilterR1 : Msg :=
  [("type", .str "broadcast"), ("from", .str "node-a"), ("filter", .arr [.str "r1"])]

/-- A sender address for concrete dispatch instances. -/
def rinfoA : Rinfo := ⟨"192.168.0.7", 3025⟩

/-- A custom-typed envelope carrying a field (text) outside the data model and a
falsy port. -/
def extraMsg : Msg := [("type", .str "hello"), ("text", .str "hey"), ("port", .num 0)]

/-- A well-formed inbound pong from another node. -/
def pongFromA : Msg := [("type", .str "pong"), ("from", .str "node-a")]

/-
Helper lemmas about the object and registry primitives.
-/

theorem getProp_setProp_self (m : Msg) (k : String) (v : JVal) :
    getProp (setProp m k v) k = some v := by
  induction m with
  | nil => simp [setProp, getProp]
  | cons kv t ih =>
    obtain ⟨a, b⟩ := kv
    by_cases h : a = k <;> simp [setProp, getProp, h, ih]

theorem getProp_setProp_ne (m : Msg) (k k' : String) (v : JVal) (h : k' ≠ k) :
    getProp (setProp m k v) k' = getProp m k' := by
  induction m with
  | nil => simp [setProp, getProp, Ne.symm h]
  | cons kv t ih =>
    obtain ⟨a, b⟩ := kv
    by_cases hh : a = k
    · subst hh
      simp [setProp, getProp, Ne.symm h]
    · simp [setProp, getProp, hh, ih]

theorem mem_keysOf_setProp (m : Msg) (k k' : String) (v : JVal) :
    k' ∈ keysOf (setProp m k v) ↔ (k' ∈ keysOf m ∨ k' = k) := by
  induction m with
  | nil => simp [setProp, keysOf]
  | cons kv t ih =>
    obtain ⟨a, b⟩ := kv
    by_cases h : a = k
    · subst h
      simp [setProp, keysOf]
      tauto
    · simp [setProp, keysOf, h] at ih ⊢
      tauto

theorem lookupEv_updateKey_self (evts : Events) (k : String) (f : List Nat → List Nat) :
    lookupEv (updateKey evts k f) k = (lookupEv evts k).map f := by
  induction evts with
  | nil => simp [updateKey, lookupEv]
  | cons kv t ih =>
    obtain ⟨a, l⟩ := kv
    by_cases h : a = k <;> simp [updateKey, lookupEv, h, ih]

theorem lookupEv_removeKey_self (evts : Events) (k : String) :
    lookupEv (removeKey evts k) k = none := by
  induction evts with
  | nil => simp [removeKey, lookupEv]
  | cons kv t ih =>
    obtain ⟨a, l⟩ := kv
    by_cases h : a = k
    · simpa [removeKey, List.filter_cons, h] using ih
    · simpa [removeKey, List.filter_cons, lookupEv, h] using ih

theorem lookupEv_append_none (evts z : Events) (k : String) (h : lookupEv evts k = none) :
    lookupEv (evts ++ z) k = lookupEv z k := by
  induction evts with
  | nil => simp
  | cons kv t ih =>
    obtain ⟨a, l⟩ := kv
    by_cases hh : a = k
    · simp [lookupEv, hh] at h
    · simp [lookupEv, hh] at h ⊢
      exact ih h

theorem processList_append (c : NodeConfig) (evts : Events)
    (xs ys : List (Option JVal × Rinfo)) :
    UdpNode.processList c evts (xs ++ ys) =
      UdpNode.processList c evts xs ++ UdpNode.processList c evts ys := by
  induction xs with
  | nil => simp [UdpNode.processList]
  | cons p t ih =>
    obtain ⟨d, r⟩ := p
    simp [UdpNode.processList, ih]

theorem closeMany_closed (n : Nat) : UdpNode.closeMany n true = (true, []) := by
  induction n with
  | zero => rfl
  | succ n ih => simp [UdpNode.closeMany, UdpNode.close, ih]

theorem foldl_set_type (os : List Msg) (c : NodeConfig) :
    (os.foldl UdpNode.set c).type = c.type := by
  induction os generalizing c with
  | nil => rfl
  | cons o t ih => simp [List.foldl, ih, UdpNode.set]

/-- C1: the four-rule interest decision is violated by the configured system: a
node configured with a declared role (type r2) replies to a broadcast whose
filter is the other role [r1], because `set` never stores the role — the
resulting config has no type key, so rule 3 fires and the node answers with a
pong instead of staying silent. -/
theorem role_filter_inoperative :
    cfgRoleR2.type = none ∧
    UdpNode.isNodeOfInterest cfgRoleR2 broadcastFilterR1 = .ok true ∧
    UdpNode.onBroadcast cfgRoleR2 broadcastFilterR1 rinfoA =
      ([.logDebug, .cb (.obj broadcastFilterR1) rinfoA,
        .wire ⟨UdpNode.pongWirePayload cfgRoleR2 rinfoA, .num 3025, .str "192.168.0.7"⟩],
       none) :=
  ⟨rfl, rfl, rfl⟩

/-- C8: close is idempotent — on an already-closed node it is a no-op with no
events, and any positive number of close calls on a fresh node closes the
transport exactly once, producing the same trace as a single call. -/
theorem close_idempotent (n : Nat) :
    UdpNode.close true = (true, []) ∧
    UdpNode.closeMany (n + 1) false = (true, [.logDebug, .transportClose]) := by
  constructor
  · rfl
  · simp [UdpNode.closeMany, UdpNode.close, closeMany_closed]

/-- C9: an inbound pong always fires the discovery callback — with no interest
filtering and no self-suppression check — and sends nothing in reply. -/
theorem pong_always_callback_no_reply (c : NodeConfig) (m : Msg) (r : Rinfo) :
    UdpNode.onPong c m r = ([.logDebug, .cb (.obj m) r], none) :=
  rfl

/-- C10: calling off with an index for a type that has no registry entry throws a
TypeError (from reading the missing list), not a no-op and not the validation
error reserved for an empty type string. -/
theorem off_missing_type_throws (evts : Events) (τ : String) (i : Nat)
    (hτ : τ ≠ "") (h : lookupEv evts τ = none) :
    UdpNode.off evts τ (some i) = .error .typeError := by
  by_cases hp : τ ∈ protoKeys <;> simp [UdpNode.off, eventsRead, hτ, h, hp]

/-- C10 witness: the never-registered type x with index 0 on an empty registry. -/
theorem off_missing_type_throws_w :
    ("x" ≠ "" ∧ lookupEv ([] : Events) "x" = none) ∧
    UdpNode.off ([] : Events) "x" (some 0) = .error .typeError :=
  ⟨⟨by decide, rfl⟩, off_missing_type_throws [] "x" 0 (by decide) rfl⟩

theorem send_ok (c : NodeConfig) (m : Msg) (hs : UdpNode.wasSetup c = true)
    (ht : truthyOpt (getProp m "type") = true) :
    UdpNode.send c m =
      ⟨none,
       [⟨setProp (setProp (setProp m "from" c.id) "port" (jsOr (getProp m "port") (.num 3024)))
           "address" (jsOr (getProp m "address") (.str "255.255.255.255")),
         jsOr (getProp m "port") (.num 3024),
         jsOr (getProp m "address") (.str "255.255.255.255")⟩],
       setProp (setProp (setProp m "from" c.id) "port" (jsOr (getProp m "port") (.num 3024)))
         "address" (jsOr (getProp m "address") (.str "255.255.255.255"))⟩ := by
  simp only [UdpNode.send, hs, ht, Bool.not_true, Bool.false_eq_true, if_false]
  rw [getProp_setProp_ne m "from" "port" c.id (by decide)]
  rw [getProp_setProp_ne (setProp m "from" c.id) "port" "address"
      (jsOr (getProp m "port") (.num 3024)) (by decide)]
  rw [getProp_setProp_ne m "from" "address" c.id (by decide)]

/-- C2 (amended): an accepted send transmits exactly one datagram whose object is
the caller's envelope with from overwritten to the sender's id and port/address
replaced by the defaults when absent or falsy; every other field — including
fields outside the data model — passes through unchanged, so decoding the
encoded bytes reproduces every field of the original except from, and except
port/address when those were absent or falsy. -/
theorem send_roundtrip (c : NodeConfig) (m : Msg) (hs : UdpNode.wasSetup c = true)
    (ht : truthyOpt (getProp m "type") = true) :
    (UdpNode.send c m).err = none ∧
    (UdpNode.send c m).sent =
      [⟨(UdpNode.send c m).msg, jsOr (getProp m "port") (.num 3024),
        jsOr (getProp m "address") (.str "255.255.255.255")⟩] ∧
    getProp (UdpNode.send c m).msg "from" = some c.id ∧
    getProp (UdpNode.send c m).msg "port" = some (jsOr (getProp m "port") (.num 3024)) ∧
    getProp (UdpNode.send c m).msg "address" =
      some (jsOr (getProp m "address") (.str "255.255.255.255")) ∧
    (∀ k, k ≠ "from" → k ≠ "port" → k ≠ "address" →
      getProp (UdpNode.send c m).msg k = getProp m k) ∧
    (∀ k, k ∈ keysOf (UdpNode.send c m).msg ↔
      (k ∈ keysOf m ∨ k = "from" ∨ k = "port" ∨ k = "address")) := by
  rw [send_ok c m hs ht]
  refine ⟨rfl, rfl, ?_, ?_, ?_, ?_, ?_⟩
  · rw [getProp_setProp_ne _ "address" "from" _ (by decide),
        getProp_setProp_ne _ "port" "from" _ (by decide), getProp_setProp_self]
  · rw [getProp_setProp_ne _ "address" "port" _ (by decide), getProp_setProp_self]
  · rw [getProp_setProp_self]
  · intro k h1 h2 h3
    rw [getProp_setProp_ne _ "address" k _ h3, getProp_setProp_ne _ "port" k _ h2,
        getProp_setProp_ne _ "from" k _ h1]
  · intro k
    simp only [mem_keysOf_setProp]
    tauto

/-- C2 counterexample: a configured node's send of extraMsg (type hello, extra
field text, port 0) is accepted, transmits the extra field text — which is not
among the data-model envelope fields — and rewrites the falsy port 0 to the
default 3024, so the decoded datagram does not reproduce the original port. -/
theorem send_extra_field_cx :
    (UdpNode.send cfgW extraMsg).err = none ∧
    "text" ∈ keysOf (UdpNode.send cfgW extraMsg).msg ∧
    "text" ∉ dataModelFields ∧
    getProp extraMsg "port" = some (.num 0) ∧
    getProp (UdpNode.send cfgW extraMsg).msg "port" = some (.num 3024) ∧
    (some (JVal.num 3024) : Option JVal) ≠ some (.num 0) := by
  refine ⟨rfl, by decide, by decide, rfl, rfl, ?_⟩
  intro h
  injection h with h1
  injection h1 with h2
  exact absurd h2 (by decide)

/-- C2 witness: the amended round-trip at a concrete configured node and
envelope, including pass-through of the extra field. -/
theorem send_roundtrip_w :
    (UdpNode.send cfgW extraMsg).err = none ∧
    getProp (UdpNode.send cfgW extraMsg).msg "from" = some cfgW.id ∧
    getProp (UdpNode.send cfgW extraMsg).msg "text" = getProp extraMsg "text" ∧
    ("node" ∈ keysOf (UdpNode.send cfgW extraMsg).msg ↔
      ("node" ∈ keysOf extraMsg ∨ "node" = "from" ∨ "node" = "port" ∨ "node" = "address")) :=
  have t := send_roundtrip cfgW extraMsg rfl rfl
  ⟨t.1, t.2.2.1, t.2.2.2.2.2.1 "text" (by decide) (by decide) (by decide),
   t.2.2.2.2.2.2 "node"⟩

/-- C4: ping, broadcast and send before configuration fail with NotConfigured; a
configured ping without a truthy address fails with MissingAddress; a configured
send without a truthy type fails with MissingType; each failure is synchronous,
transmits no datagram, and leaves the caller's envelope unmutated. -/
theorem presend_error_paths (c : NodeConfig) (m p : Msg) (q : Option Msg) :
    (UdpNode.wasSetup c = false →
      UdpNode.send c m = ⟨some .notConfigured, [], m⟩ ∧
      UdpNode.ping c p = (some .notConfigured, []) ∧
      UdpNode.broadcast c q = (some .notConfigured, [])) ∧
    (UdpNode.wasSetup c = true → truthyOpt (getProp p "address") = false →
      UdpNode.ping c p = (some .missingAddress, [])) ∧
    (UdpNode.wasSetup c = true → truthyOpt (getProp m "type") = false →
      UdpNode.send c m = ⟨some .missingType, [], m⟩) := by
  refine ⟨fun h => ⟨?_, ?_, ?_⟩, fun h1 h2 => ?_, fun h1 h2 => ?_⟩
  · simp [UdpNode.send, h]
  · simp [UdpNode.ping, h]
  · simp [UdpNode.broadcast, h]
  · simp [UdpNode.ping, h1, h2]
  · simp [UdpNode.send, h1, h2]

/-- C4 witness: concrete unconfigured and configured nodes exercising each error
path. -/
theorem presend_error_paths_w :
    UdpNode.send (UdpNode.mkNode "u1") [("type", .str "x")] =
      ⟨some .notConfigured, [], [("type", .str "x")]⟩ ∧
    UdpNode.ping (UdpNode.mkNode "u1") [("address", .str "1.2.3.4")] =
      (some .notConfigured, []) ∧
    UdpNode.broadcast (UdpNode.mkNode "u1") none = (some .notConfigured, []) ∧
    UdpNode.ping cfgW [] = (some .missingAddress, []) ∧
    UdpNode.send cfgW [("data", .str "d")] =
      ⟨some .missingType, [], [("data", .str "d")]⟩ :=
  have t1 := presend_error_paths (UdpNode.mkNode "u1") [("type", .str "x")]
    [("address", .str "1.2.3.4")] none
  have t2 := presend_error_paths cfgW [("data", .str "d")] [] none
  ⟨(t1.1 rfl).1, (t1.1 rfl).2.1, (t1.1 rfl).2.2, t2.2.1 rfl rfl, t2.2.2 rfl rfl⟩

/-- C5: a datagram JSON.parse rejects makes the try block throw a SyntaxError;
the listener catches it, logs the failure and the trailing invalid-message line,
fires no callback and emits no reply; every exception the try block raises ends
in those logs instead of escaping to the socket; and a sequence of inbound
datagrams containing a malformed one processes the surrounding datagrams exactly
as it would without it. -/
theorem malformed_datagram_recovery (c : NodeConfig) (evts : Events) (r : Rinfo)
    (xs ys : List (Option JVal × Rinfo)) :
    UdpNode.dispatchTry c evts none r = .threw [] .syntaxError ∧
    UdpNode.messageHandler c evts none r = [.logError, .logDebug] ∧
    (∀ d r' evs e, UdpNode.dispatchTry c evts d r' = .threw evs e →
      UdpNode.messageHandler c evts d r' = evs ++ [.logError, .logDebug]) ∧
    UdpNode.processList c evts (xs ++ (none, r) :: ys) =
      UdpNode.processList c evts xs ++
        ([.logError, .logDebug] ++ UdpNode.processList c evts ys) := by
  refine ⟨rfl, rfl, ?_, ?_⟩
  · intro d r' evs e h
    simp [UdpNode.messageHandler, h]
  · rw [processList_append]
    simp [UdpNode.processList, UdpNode.messageHandler, UdpNode.dispatchTry]

/-- C5 witness: a malformed datagram arriving between two well-formed pongs is
logged and dropped while both pongs are still dispatched. -/
theorem malformed_datagram_recovery_w :
    UdpNode.messageHandler cfgW [] none rinfoA = [.logError, .logDebug] ∧
    UdpNode.messageHandler cfgW [] (some .null) rinfoA = [.logError, .logDebug] ∧
    UdpNode.processList cfgW []
        ([(some (.obj pongFromA), rinfoA)] ++ (none, rinfoA) :: [(some (.obj pongFromA), rinfoA)]) =
      UdpNode.processList cfgW [] [(some (.obj pongFromA), rinfoA)] ++
        ([.logError, .logDebug] ++ UdpNode.processList cfgW [] [(some (.obj pongFromA), rinfoA)]) :=
  have t := malformed_datagram_recovery cfgW [] rinfoA
    [(some (.obj pongFromA), rinfoA)] [(some (.obj pongFromA), rinfoA)]
  ⟨t.2.1, t.2.2.1 (some .null) rinfoA [] .typeError rfl, t.2.2.2⟩

theorem pong_spec (c : NodeConfig) (r : Rinfo) (hs : UdpNode.wasSetup c = true)
    (hp : r.port ≠ 0) (ha : r.address ≠ "") :
    UdpNode.pong c r =
      ⟨none, [⟨UdpNode.pongWirePayload c r, .num r.port, .str r.address⟩],
       UdpNode.pongWirePayload c r⟩ := by
  simp [UdpNode.pong, UdpNode.send, UdpNode.pongMsg, UdpNode.pongWirePayload, hs,
        getProp, setProp, truthyOpt, truthy, jsOr, hp, ha]

/-- C3: on an inbound ping or broadcast of a configured node, when the interest
filter passes the node logs, fires the discovery callback with the envelope and
sender info, and then emits exactly one pong — addressed to the sender's address
and source port and carrying the node's full identity; when the filter fails it
fires no callback and sends nothing. -/
theorem ping_broadcast_dispatch (c : NodeConfig) (m : Msg) (r : Rinfo)
    (hs : UdpNode.wasSetup c = true) (hp : r.port ≠ 0) (ha : r.address ≠ "") :
    (UdpNode.isNodeOfInterest c m = .ok true →
      UdpNode.onPing c m r =
        ([.logDebug, .cb (.obj m) r,
          .wire ⟨UdpNode.pongWirePayload c r, .num r.port, .str r.address⟩], none) ∧
      UdpNode.onBroadcast c m r =
        ([.logDebug, .cb (.obj m) r,
          .wire ⟨UdpNode.pongWirePayload c r, .num r.port, .str r.address⟩], none)) ∧
    (UdpNode.isNodeOfInterest c m = .ok false →
      UdpNode.onPing c m r = ([], none) ∧ UdpNode.onBroadcast c m r = ([], none)) := by
  have hq := pong_spec c r hs hp ha
  constructor
  · intro hint
    constructor <;> simp [UdpNode.onPing, UdpNode.onBroadcast, hint, hq]
  · intro hint
    constructor <;> simp [UdpNode.onPing, UdpNode.onBroadcast, hint]

/-- C3 witness: a configured node answers a ping and a broadcast from another
node with exactly one pong to the sender's address and source port, and stays
silent on a ping carrying its own id. -/
theorem ping_broadcast_dispatch_w :
    UdpNode.onPing cfgW [("type", .str "ping"), ("from", .str "node-a")] rinfoA =
      ([.logDebug, .cb (.obj [("type", .str "ping"), ("from", .str "node-a")]) rinfoA,
        .wire ⟨UdpNode.pongWirePayload cfgW rinfoA, .num 3025, .str "192.168.0.7"⟩], none) ∧
    UdpNode.onBroadcast cfgW [("type", .str "broadcast"), ("from", .str "node-a")] rinfoA =
      ([.logDebug, .cb (.obj [("type", .str "broadcast"), ("from", .str "node-a")]) rinfoA,
        .wire ⟨UdpNode.pongWirePayload cfgW rinfoA, .num 3025, .str "192.168.0.7"⟩], none) ∧
    UdpNode.onPing cfgW [("type", .str "ping"), ("from", .str "sender-1")] rinfoA =
      ([], none) :=
  have t1 := ping_broadcast_dispatch cfgW [("type", .str "ping"), ("from", .str "node-a")]
    rinfoA rfl (by decide) (by decide)
  have t2 := ping_broadcast_dispatch cfgW
    [("type", .str "broadcast"), ("from", .str "node-a")] rinfoA rfl (by decide) (by decide)
  have t3 := ping_broadcast_dispatch cfgW [("type", .str "ping"), ("from", .str "sender-1")]
    rinfoA rfl (by decide) (by decide)
  ⟨(t1.1 rfl).1, (t2.1 rfl).2, (t3.2 rfl).1⟩

/-- C6 counterexample: at the never-registered type toString, on with a callable
handler throws a TypeError instead of appending (the inherited
Object.prototype.toString is truthy, so the array is never created and push is
missing), and after off(toString) the in-test still finds the inherited key, so
dispatch does not treat the type as unregistered — it attempts the handler call
and throws. -/
theorem registry_proto_cx :
    UdpNode.onEvt ([] : Events) "toString" (.func 5) = .error .typeError ∧
    UdpNode.off ([] : Events) "toString" none = .ok ([] : Events) ∧
    UdpNode.isCustomEvent ([] : Events) "toString" = true ∧
    UdpNode.onCustomEvent ([] : Events) "toString" (.str "m") rinfoA =
      ([.logDebug], some .typeError) :=
  ⟨rfl, rfl, rfl, rfl⟩

/-- C6 (amended): the registry contract with the Object.prototype chain — on
validates its arguments and appends the handler in order, appending to an
existing own entry and creating the list when the type has no own entry and is
not an inherited prototype key; for an inherited key with no own entry, on
throws a TypeError instead. off with no index deletes the own entry, and
subsequent dispatch treats the type as unregistered exactly when it is not an
inherited prototype key; off with an index removes exactly the indexed handler,
keeping the remaining handlers and the (possibly empty) list; dispatch of a
type with an own entry fires the handlers in registration order. -/
theorem registry_contract (evts : Events) (τ : String) (h i : Nat) (l : List Nat)
    (msg : JVal) (r : Rinfo) :
    UdpNode.onEvt evts "" (.func h) = .error .invalidArgument ∧
    UdpNode.onEvt evts τ .undef = .error .invalidArgument ∧
    UdpNode.onEvt evts τ .nonFunc = .error .invalidArgument ∧
    (τ ≠ "" → lookupEv evts τ = some l →
      UdpNode.onEvt evts τ (.func h) = .ok (updateKey evts τ (fun x => x ++ [h])) ∧
      lookupEv (updateKey evts τ (fun x => x ++ [h])) τ = some (l ++ [h])) ∧
    (τ ≠ "" → lookupEv evts τ = none → τ ∉ protoKeys →
      UdpNode.onEvt evts τ (.func h) = .ok (evts ++ [(τ, [h])]) ∧
      lookupEv (evts ++ [(τ, [h])]) τ = some [h]) ∧
    (τ ≠ "" → lookupEv evts τ = none → τ ∈ protoKeys →
      UdpNode.onEvt evts τ (.func h) = .error .typeError) ∧
    (τ ≠ "" →
      UdpNode.off evts τ none = .ok (removeKey evts τ) ∧
      lookupEv (removeKey evts τ) τ = none ∧
      (τ ∉ protoKeys → UdpNode.isCustomEvent (removeKey evts τ) τ = false) ∧
      (τ ∈ protoKeys → UdpNode.isCustomEvent (removeKey evts τ) τ = true)) ∧
    (τ ≠ "" → lookupEv evts τ = some l →
      UdpNode.off evts τ (some i) = .ok (updateKey evts τ (fun x => spliceAt x i)) ∧
      lookupEv (updateKey evts τ (fun x => spliceAt x i)) τ =
        some (l.take i ++ l.drop (i + 1))) ∧
    (lookupEv evts τ = some l →
      UdpNode.onCustomEvent evts τ msg r =
        ([.logDebug] ++ l.map (fun x => Ev.custom x msg r), none)) := by
  refine ⟨?_, ?_, ?_, ?_, ?_, ?_, ?_, ?_, ?_⟩
  · simp [UdpNode.onEvt]
  · by_cases hτ : τ = "" <;> simp [UdpNode.onEvt, hτ]
  · by_cases hτ : τ = "" <;> simp [UdpNode.onEvt, hτ]
  · intro hτ hl
    exact ⟨by simp [UdpNode.onEvt, eventsRead, hτ, hl],
           by simp [lookupEv_updateKey_self, hl]⟩
  · intro hτ hl hp
    exact ⟨by simp [UdpNode.onEvt, eventsRead, hτ, hl, hp],
           by simp [lookupEv_append_none evts [(τ, [h])] τ hl, lookupEv]⟩
  · intro hτ hl hp
    simp [UdpNode.onEvt, eventsRead, hτ, hl, hp]
  · intro hτ
    refine ⟨by simp [UdpNode.off, hτ], lookupEv_removeKey_self evts τ, ?_, ?_⟩
    · intro hp
      simp [UdpNode.isCustomEvent, lookupEv_removeKey_self, hp]
    · intro hp
      simp [UdpNode.isCustomEvent, hp]
  · intro hτ hl
    exact ⟨by simp [UdpNode.off, eventsRead, hτ, hl],
           by simp [lookupEv_updateKey_self, hl, spliceAt]⟩
  · intro hl
    simp [UdpNode.onCustomEvent, eventsRead, hl]

/-- C6 witness: a concrete registration chain — validation errors, append to an
existing entry, creation for an ordinary type, the TypeError at the inherited
key toString, whole removal unregistering an ordinary type but not an inherited
one, indexed removal keeping the list, and in-order dispatch of two handlers. -/
theorem registry_contract_w :
    UdpNode.onEvt ([] : Events) "" (.func 9) = .error .invalidArgument ∧
    UdpNode.onEvt [("hello", [7])] "hello" .undef = .error .invalidArgument ∧
    UdpNode.onEvt [("hello", [7])] "hello" .nonFunc = .error .invalidArgument ∧
    UdpNode.onEvt [("hello", [7])] "hello" (.func 9) = .ok [("hello", [7, 9])] ∧
    UdpNode.onEvt ([] : Events) "hello" (.func 7) = .ok [("hello", [7])] ∧
    UdpNode.onEvt ([] : Events) "valueOf" (.func 7) = .error .typeError ∧
    UdpNode.off [("hello", [7, 9])] "hello" none = .ok [] ∧
    UdpNode.isCustomEvent ([] : Events) "hello" = false ∧
    UdpNode.isCustomEvent (removeKey ([] : Events) "toString") "toString" = true ∧
    UdpNode.off [("hello", [7, 9])] "hello" (some 0) = .ok [("hello", [9])] ∧
    lookupEv [("hello", [9])] "hello" = some [9] ∧
    UdpNode.onCustomEvent [("hello", [7, 9])] "hello" (.str "m") rinfoA =
      ([.logDebug, .custom 7 (.str "m") rinfoA, .custom 9 (.str "m") rinfoA], none) :=
  have tA := registry_contract [("hello", [7])] "hello" 9 0 [7] (.str "m") rinfoA
  have tB := registry_contract [("hello", [7, 9])] "hello" 9 0 [7, 9] (.str "m") rinfoA
  have tC := registry_contract ([] : Events) "hello" 7 0 [] (.str "m") rinfoA
  have tD := registry_contract ([] : Events) "valueOf" 7 0 [] (.str "m") rinfoA
  have tE := registry_contract ([] : Events) "toString" 5 0 [] (.str "m") rinfoA
  ⟨tC.1, tA.2.1, tA.2.2.1, (tA.2.2.2.1 (by decide) rfl).1,
   (tC.2.2.2.2.1 (by decide) rfl (by decide)).1,
   tD.2.2.2.2.2.1 (by decide) rfl (by decide),
   (tB.2.2.2.2.2.2.1 (by decide)).1,
   (tC.2.2.2.2.2.2.1 (by decide)).2.2.1 (by decide),
   (tE.2.2.2.2.2.2.1 (by decide)).2.2.2 (by decide),
   (tB.2.2.2.2.2.2.2.1 (by decide) rfl).1, (tB.2.2.2.2.2.2.2.1 (by decide) rfl).2,
   tB.2.2.2.2.2.2.2.2 rfl⟩

/-- C7: configure applies the defaults 3024 and 255.255.255.255 for an omitted
port and broadcast address, makes the node configured, preserves the id unless a
truthy one is supplied, and the id is generated at construction — but configure
never stores a role: the options' type key is dropped by every set call, so no
sequence of configure calls can set or change the node's role. -/
theorem configure_contract (c : NodeConfig) (o : Msg) (g : String) (os : List Msg) :
    (UdpNode.set c o).type = c.type ∧
    (os.foldl UdpNode.set (UdpNode.mkNode g)).type = none ∧
    (UdpNode.set (UdpNode.mkNode "n1") [("type", .str "r2")]).type = none ∧
    UdpNode.wasSetup (UdpNode.set c o) = true ∧
    (truthyOpt (getProp o "id") = false → (UdpNode.set c o).id = c.id) ∧
    (UdpNode.set c o).port = some (jsOr (getProp o "port") (.num 3024)) ∧
    (UdpNode.set c o).broadcastAddress =
      some (jsOr (getProp o "broadcastAddress") (.str "255.255.255.255")) ∧
    (UdpNode.mkNode g).id = .str g ∧
    UdpNode.wasSetup (UdpNode.mkNode g) = false := by
  refine ⟨rfl, ?_, rfl, ?_, ?_, rfl, rfl, rfl, rfl⟩
  · exact foldl_set_type os (UdpNode.mkNode g)
  · cases ht : c.type <;> simp [UdpNode.wasSetup, UdpNode.set, UdpNode.keyCount, ht]
  · intro hid
    cases hg : getProp o "id" with
    | none => simp [UdpNode.set, jsOr, hg]
    | some v =>
      simp [truthyOpt, hg] at hid
      simp [UdpNode.set, jsOr, hg, hid]

/-- C7 witness: concrete configure calls — a supplied role is dropped (also
across repeated calls), defaults are applied, the id is preserved and the
constructed id is the generated one. -/
theorem configure_contract_w :
    (UdpNode.set cfgW [("type", .str "r1")]).type = none ∧
    ([[("type", .str "r1")], [("type", .str "r2")]].foldl UdpNode.set
        (UdpNode.mkNode "n9")).type = none ∧
    UdpNode.wasSetup (UdpNode.set (UdpNode.mkNode "n9") []) = true ∧
    (UdpNode.set cfgW []).id = cfgW.id ∧
    (UdpNode.set (UdpNode.mkNode "n9") []).port = some (.num 3024) ∧
    (UdpNode.set (UdpNode.mkNode "n9") []).broadcastAddress =
      some (.str "255.255.255.255") ∧
    (UdpNode.mkNode "n9").id = .str "n9" ∧
    UdpNode.wasSetup (UdpNode.mkNode "n9") = false :=
  have t1 := configure_contract cfgW [("type", .str "r1")] "n9"
    [[("type", .str "r1")], [("type", .str "r2")]]
  have t2 := configure_contract (UdpNode.mkNode "n9") ([] : Msg) "n9" []
  have t3 := configure_contract cfgW ([] : Msg) "n9" []
  ⟨t1.1, t1.2.1, t2.2.2.2.1, t3.2.2.2.2.1 rfl, t2.2.2.2.2.2.1, t2.2.2.2.2.2.2.1,
   t2.2.2.2.2.2.2.2.1, t2.2.2.2.2.2.2.2.2⟩
